import Mathlib

/-!
Verification of the UHF RFID reader driver (`rfid_reader.py`, `serial_io.py`).

Byte strings are modelled as `List Nat` (each element one byte value).
Python slices, `int.from_bytes`, and `bytes.split` are embedded directly.
The serial transport is modelled as an oracle (`Transport`) giving the outcome of
each successive `serial_send` / `serial_receive` call; driver methods are
embedded as state-passing functions over a counter state (`TState`).
-/

/-- Byte strings, one `Nat` per byte. -/
abbrev Bytes := List Nat

/-- Python slice `l[a:b]` (for `a ≤ b`). -/
def pySlice (l : Bytes) (a b : Nat) : Bytes := (l.drop a).take (b - a)

/-- Python `int.from_bytes(l, 'big')`. -/
def bytesToNatBE (l : Bytes) : Nat := l.foldl (fun acc b => 256 * acc + b) 0

/-- Python `int.from_bytes(l, 'big', signed=True)` (two's complement). -/
def bytesToIntBE (l : Bytes) : Int :=
  let n := bytesToNatBE l
  let m := 256 ^ l.length
  if 2 * n ≥ m then (n : Int) - (m : Int) else (n : Int)

/-- `UHFBytes.FRAMING_BYTES = b'\xf6('`. -/
def FRAMING_BYTES : Bytes := [0xf6, 0x28]

/-- `UHFBytes.FRAMING_BYTES_LEN = 2`. -/
def FRAMING_BYTES_LEN : Nat := 2

/-- `UHFBytes.STATUS_SUCCESS = b'\x00\x00'`. -/
def STATUS_SUCCESS : Bytes := [0x00, 0x00]

/-- `UHFBytes.GET_VERSION`. -/
def GET_VERSION : Bytes := [0x80, 0x04]

/-- `UHFBytes.GET_TEMP`. -/
def GET_TEMP : Bytes := [0x80, 0x13]

/-- `UHFBytes.GET_OP_REGION`. -/
def GET_OP_REGION : Bytes := [0x80, 0x03]

/-- `UHFBytes.SET_OP_REGION`. -/
def SET_OP_REGION : Bytes := [0x80, 0x02]

/-- `UHFBytes.GET_OP_PARAMS`. -/
def GET_OP_PARAMS : Bytes := [0x80, 0x0B]

/-- `UHFBytes.SET_OP_PARAMS`. -/
def SET_OP_PARAMS : Bytes := [0x80, 0x0A]

/-- `UHFBytes.GET_EVENT_MASK`. -/
def GET_EVENT_MASK : Bytes := [0x80, 0x15]

/-- `UHFBytes.SET_EVENT_MASK`. -/
def SET_EVENT_MASK : Bytes := [0x80, 0x14]

/-- `UHFBytes.SET_TX_POWER`. -/
def SET_TX_POWER : Bytes := [0x80, 0x05]

/-- `UHFBytes.GET_TX_POWER`. -/
def GET_TX_POWER : Bytes := [0x80, 0x06]

/-- `UHFBytes.SET_ANT_ENABLES`. -/
def SET_ANT_ENABLES : Bytes := [0x80, 0x0E]

/-- `UHFBytes.GET_ANT_ENABLES`. -/
def GET_ANT_ENABLES : Bytes := [0x80, 0x0F]

/-- `UHFBytes.SET_OP_STATE`. -/
def SET_OP_STATE : Bytes := [0x80, 0x0C]

/-- `UHFBytes.GET_OP_STATE`. -/
def GET_OP_STATE : Bytes := [0x80, 0x0D]

/-- `UHFBytes.GET_TAG_REPORT`. -/
def GET_TAG_REPORT : Bytes := [0x80, 0x09]

/-- `UHFBytes.KEEP_ALIVE`. -/
def KEEP_ALIVE : Bytes := [0x80, 0x01]

/-- Accumulator-based worker for Python `bytes.split(b'\xf6(')`.
`acc` holds the current fragment reversed.  The two marker bytes differ, so
occurrences cannot overlap and greedy left-to-right scanning is exact. -/
def splitAux : Bytes → Bytes → List Bytes
  | acc, [] => [acc.reverse]
  | acc, [x] => [(x :: acc).reverse]
  | acc, x :: y :: rest =>
    if x = 0xf6 ∧ y = 0x28 then acc.reverse :: splitAux [] rest
    else splitAux (x :: acc) (y :: rest)

/-- Python `res.split(UHFBytes.FRAMING_BYTES)`. -/
def splitOnMarker (l : Bytes) : List Bytes := splitAux [] l

/-- `true` iff the two-byte marker `F6 28` occurs somewhere in `l`. -/
def hasMarker : Bytes → Bool
  | [] => false
  | [_] => false
  | x :: y :: rest => (decide (x = 0xf6) && decide (y = 0x28)) || hasMarker (y :: rest)

/-- The pure body of `wait_for_response_short` (the transformation applied to
the raw received buffer).  `matchOp` embeds the Python comparison
`res[4:6] == set_response`: for byte-string expected opcodes it is equality,
while `keep_alive` passes the integer `REC_TIMEOUT` whose comparison with a
byte slice is always `False` in Python. -/
def resynchronize (matchOp : Bytes → Bool) (res : Bytes) : Bytes :=
  let res_trimmed := splitOnMarker res
  let res1 :=
    if res_trimmed.length > 2 then
      let cand := FRAMING_BYTES ++ res_trimmed.getD 2 []
      if matchOp (pySlice cand 4 6) then cand
      else FRAMING_BYTES ++ res_trimmed.getD 1 []
    else res
  res1.take (bytesToNatBE (pySlice res1 2 4) + FRAMING_BYTES_LEN)

/-- Comparison `res[4:6] == set_response` for a byte-string expected opcode. -/
def opMatch (set_response : Bytes) : Bytes → Bool := fun b => b == set_response

/-- Comparison `res[4:6] == set_response` when `set_response` is the integer
`REC_TIMEOUT` (as mistakenly passed by `keep_alive`): in Python a bytes-vs-int
comparison is always `False`. -/
def intMatch : Bytes → Bool := fun _ => false

/-- `wait_for_response_short(set_response)` restricted to its pure part: the
buffer returned by `serial_receive` in, the trimmed/truncated response out. -/
def wait_for_response_short_pure (set_response : Bytes) (res : Bytes) : Bytes :=
  resynchronize (opMatch set_response) res

theorem splitAux_noMarker :
    ∀ n a, a.length ≤ n → hasMarker a = false →
      ∀ acc, splitAux acc a = [acc.reverse ++ a] := by
  intro n
  induction n with
  | zero =>
    intro a ha _ acc
    have : a = [] := List.eq_nil_of_length_eq_zero (Nat.le_zero.mp ha)
    subst this
    simp [splitAux]
  | succ n ih =>
    intro a ha hm acc
    match a with
    | [] => simp [splitAux]
    | [x] => simp [splitAux]
    | x :: y :: rest =>
      have hm' : hasMarker (y :: rest) = false := by
        simp [hasMarker] at hm
        exact hm.2
      have hxy : ¬ (x = 0xf6 ∧ y = 0x28) := by
        simp [hasMarker] at hm
        intro h
        exact absurd h.2 (hm.1 h.1)
      rw [splitAux]
      simp only [if_neg hxy]
      have hlen : (y :: rest).length ≤ n := by
        simp at ha ⊢
        omega
      rw [ih (y :: rest) hlen hm' (x :: acc)]
      simp

theorem splitAux_marker_append :
    ∀ n a, a.length ≤ n → hasMarker a = false →
      ∀ acc b, splitAux acc (a ++ 0xf6 :: 0x28 :: b) =
        (acc.reverse ++ a) :: splitAux [] b := by
  intro n
  induction n with
  | zero =>
    intro a ha _ acc b
    have : a = [] := List.eq_nil_of_length_eq_zero (Nat.le_zero.mp ha)
    subst this
    simp [splitAux]
  | succ n ih =>
    intro a ha hm acc b
    match a with
    | [] => simp [splitAux]
    | [x] =>
      have hx : ¬ (x = 0xf6 ∧ (0xf6 : Nat) = 0x28) := by
        intro h
        exact absurd h.2 (by decide)
      have hstep : splitAux acc ([x] ++ 0xf6 :: 0x28 :: b) =
          splitAux (x :: acc) (0xf6 :: 0x28 :: b) := by
        rw [List.cons_append, List.nil_append, splitAux]
        simp only [if_neg hx]
      rw [hstep, splitAux]
      simp only [if_pos (⟨rfl, rfl⟩ : (0xf6 : Nat) = 0xf6 ∧ (0x28 : Nat) = 0x28)]
      simp
    | x :: y :: rest =>
      have hm' : hasMarker (y :: rest) = false := by
        simp [hasMarker] at hm
        exact hm.2
      have hxy : ¬ (x = 0xf6 ∧ y = 0x28) := by
        simp [hasMarker] at hm
        intro h
        exact absurd h.2 (hm.1 h.1)
      have hstep : splitAux acc ((x :: y :: rest) ++ 0xf6 :: 0x28 :: b) =
          splitAux (x :: acc) ((y :: rest) ++ 0xf6 :: 0x28 :: b) := by
        rw [List.cons_append, List.cons_append, splitAux]
        simp only [if_neg hxy]
        try rw [List.cons_append]
      have hlen : (y :: rest).length ≤ n := by
        simp at ha ⊢
        omega
      rw [hstep, ih (y :: rest) hlen hm' (x :: acc) b]
      simp

theorem splitOnMarker_two_frames (kb tb : Bytes)
    (hk : hasMarker kb = false) (ht : hasMarker tb = false) :
    splitOnMarker (FRAMING_BYTES ++ kb ++ FRAMING_BYTES ++ tb) = [[], kb, tb] := by
  have h1 : FRAMING_BYTES ++ kb ++ FRAMING_BYTES ++ tb =
      (0xf6 : Nat) :: 0x28 :: (kb ++ 0xf6 :: 0x28 :: tb) := by
    simp [FRAMING_BYTES]
  rw [h1]
  unfold splitOnMarker
  rw [splitAux]
  simp only [if_pos (⟨rfl, rfl⟩ : (0xf6 : Nat) = 0xf6 ∧ (0x28 : Nat) = 0x28)]
  rw [splitAux_marker_append kb.length kb le_rfl hk [] tb]
  rw [splitAux_noMarker tb.length tb le_rfl ht []]
  simp

theorem resynchronize_le_two (m : Bytes → Bool) (buf : Bytes)
    (h : (splitOnMarker buf).length ≤ 2) :
    resynchronize m buf = buf.take (bytesToNatBE (pySlice buf 2 4) + FRAMING_BYTES_LEN) := by
  unfold resynchronize
  simp only [if_neg (by omega : ¬ (splitOnMarker buf).length > 2)]

theorem resynchronize_two_frames (m : Bytes → Bool) (kb tb : Bytes)
    (hk : hasMarker kb = false) (ht : hasMarker tb = false) :
    resynchronize m (FRAMING_BYTES ++ kb ++ FRAMING_BYTES ++ tb) =
      (if m (pySlice (FRAMING_BYTES ++ tb) 4 6)
       then (FRAMING_BYTES ++ tb).take
         (bytesToNatBE (pySlice (FRAMING_BYTES ++ tb) 2 4) + FRAMING_BYTES_LEN)
       else (FRAMING_BYTES ++ kb).take
         (bytesToNatBE (pySlice (FRAMING_BYTES ++ kb) 2 4) + FRAMING_BYTES_LEN)) := by
  unfold resynchronize
  rw [splitOnMarker_two_frames kb tb hk ht]
  dsimp only
  rw [if_pos (by simp : ([[], kb, tb] : List Bytes).length > 2)]
  rw [show ([[], kb, tb] : List Bytes).getD 2 [] = tb from rfl,
      show ([[], kb, tb] : List Bytes).getD 1 [] = kb from rfl]
  by_cases hm : m (pySlice (FRAMING_BYTES ++ tb) 4 6) = true
  · rw [if_pos hm, if_pos hm]
  · rw [if_neg hm, if_neg hm]

/-- C1: `wait_for_response_short` resynchronization.  (a) If the received
buffer splits into at most two fragments on the marker `F6 28` (the marker
occurs at most once), the buffer is used as received and only truncated to
`length-field + 2` bytes.  (b) For a buffer made of two marker-prefixed,
marker-free frames, the third fragment is reassembled with the marker prefix
first; it is kept when its opcode bytes (offsets 4-5) equal the expected
response opcode, otherwise the second fragment is reassembled and used; the
selected frame is truncated to `length-field + 2` bytes.  (c) In particular,
for a stray keep-alive-style frame immediately followed by a well-formed
target frame whose opcode field matches, the function returns the target
frame, not the stray one. -/
theorem wait_for_response_short_resynchronization :
    (∀ exp buf, (splitOnMarker buf).length ≤ 2 →
       wait_for_response_short_pure exp buf =
         buf.take (bytesToNatBE (pySlice buf 2 4) + FRAMING_BYTES_LEN))
    ∧ (∀ exp kb tb, hasMarker kb = false → hasMarker tb = false →
        wait_for_response_short_pure exp (FRAMING_BYTES ++ kb ++ FRAMING_BYTES ++ tb) =
          (if pySlice (FRAMING_BYTES ++ tb) 4 6 = exp
           then (FRAMING_BYTES ++ tb).take
             (bytesToNatBE (pySlice (FRAMING_BYTES ++ tb) 2 4) + FRAMING_BYTES_LEN)
           else (FRAMING_BYTES ++ kb).take
             (bytesToNatBE (pySlice (FRAMING_BYTES ++ kb) 2 4) + FRAMING_BYTES_LEN)))
    ∧ (∀ exp kb tb, hasMarker kb = false → hasMarker tb = false →
        pySlice (FRAMING_BYTES ++ tb) 4 6 = exp →
        bytesToNatBE (pySlice (FRAMING_BYTES ++ tb) 2 4) + FRAMING_BYTES_LEN =
          (FRAMING_BYTES ++ tb).length →
        wait_for_response_short_pure exp (FRAMING_BYTES ++ kb ++ FRAMING_BYTES ++ tb) =
          FRAMING_BYTES ++ tb)
    ∧ (∀ exp buf, (splitOnMarker buf).length > 2 →
        wait_for_response_short_pure exp buf =
          (if pySlice (FRAMING_BYTES ++ (splitOnMarker buf).getD 2 []) 4 6 = exp
           then (FRAMING_BYTES ++ (splitOnMarker buf).getD 2 []).take
             (bytesToNatBE (pySlice (FRAMING_BYTES ++ (splitOnMarker buf).getD 2 []) 2 4) +
               FRAMING_BYTES_LEN)
           else (FRAMING_BYTES ++ (splitOnMarker buf).getD 1 []).take
             (bytesToNatBE (pySlice (FRAMING_BYTES ++ (splitOnMarker buf).getD 1 []) 2 4) +
               FRAMING_BYTES_LEN))) := by
  refine ⟨?_, ?_, ?_, ?_⟩
  · intro exp buf h
    exact resynchronize_le_two (opMatch exp) buf h
  · intro exp kb tb hk ht
    rw [wait_for_response_short_pure, resynchronize_two_frames (opMatch exp) kb tb hk ht]
    by_cases hop : pySlice (FRAMING_BYTES ++ tb) 4 6 = exp
    · simp [hop, opMatch]
    · simp [hop, opMatch]
  · intro exp kb tb hk ht hop hlen
    rw [wait_for_response_short_pure, resynchronize_two_frames (opMatch exp) kb tb hk ht]
    have : opMatch exp (pySlice (FRAMING_BYTES ++ tb) 4 6) = true := by
      simp [opMatch, hop]
    rw [if_pos this, hlen, List.take_length]
  · intro exp buf h
    unfold wait_for_response_short_pure resynchronize
    dsimp only
    rw [if_pos h]
    by_cases hop : pySlice (FRAMING_BYTES ++ (splitOnMarker buf).getD 2 []) 4 6 = exp
    · have hb : opMatch exp (pySlice (FRAMING_BYTES ++ (splitOnMarker buf).getD 2 []) 4 6) =
          true := by
        show (pySlice (FRAMING_BYTES ++ (splitOnMarker buf).getD 2 []) 4 6 == exp) = true
        exact beq_iff_eq.mpr hop
      rw [if_pos hb, if_pos hop]
    · have hb : opMatch exp (pySlice (FRAMING_BYTES ++ (splitOnMarker buf).getD 2 []) 4 6) =
          false := by
        show (pySlice (FRAMING_BYTES ++ (splitOnMarker buf).getD 2 []) 4 6 == exp) = false
        exact beq_eq_false_iff_ne.mpr hop
      have hb2 : ¬ (opMatch exp
          (pySlice (FRAMING_BYTES ++ (splitOnMarker buf).getD 2 []) 4 6) = true) := by
        rw [hb]
        exact Bool.false_ne_true
      rw [if_neg hb2, if_neg hop]

/-- Witness for C1: a concrete stray keep-alive reply `F6 28 00 06 80 01 00 00`
immediately followed by the GetTemperature response
`F6 28 00 08 80 13 00 00 10 64`; the target frame is returned. -/
theorem wait_for_response_short_resynchronization_witness :
    wait_for_response_short_pure GET_TEMP
        (FRAMING_BYTES ++ [0x00, 0x06, 0x80, 0x01, 0x00, 0x00] ++
          FRAMING_BYTES ++ [0x00, 0x08, 0x80, 0x13, 0x00, 0x00, 0x10, 0x64]) =
      FRAMING_BYTES ++ [0x00, 0x08, 0x80, 0x13, 0x00, 0x00, 0x10, 0x64] :=
  wait_for_response_short_resynchronization.2.2.1 GET_TEMP
    [0x00, 0x06, 0x80, 0x01, 0x00, 0x00] [0x00, 0x08, 0x80, 0x13, 0x00, 0x00, 0x10, 0x64]
    (by decide) (by decide) (by decide) (by decide)

/-- Serial transport oracle: the outcome of the i-th `serial_send` call and of
the i-th `serial_receive` call (error string, raw bytes in). -/
structure Transport where
  sendErr : Nat → Option String
  recv : Nat → Option String × Bytes

/-- Transport counters: how many sends and receives have been performed. -/
structure TState where
  sends : Nat
  recvs : Nat
deriving DecidableEq

/-- `send_cmd(cmd)`: one `serial_send`, outcome taken from the oracle. -/
def send_cmd (t : Transport) (s : TState) : Option String × TState :=
  (t.sendErr s.sends, ⟨s.sends + 1, s.recvs⟩)

/-- `wait_for_response_short(set_response)`: one `serial_receive` followed by
the pure resynchronize-and-truncate step on the received buffer. -/
def wait_for_response_short (t : Transport) (matchOp : Bytes → Bool) (s : TState) :
    Option String × Bytes × TState :=
  ((t.recv s.recvs).1, resynchronize matchOp (t.recv s.recvs).2, ⟨s.sends, s.recvs + 1⟩)

/-- Common body of the two bounded keep-alive retry loops
(`wait_for_response_long`, fuel 5, stop on opcode match; `keep_alive`, fuel
15, stop on non-empty response).  Each iteration sends the keep-alive command
and, when the send succeeded, performs one short wait; `stop` decides whether
to break with the response just obtained.  The last-seen error and response
are carried and returned when the bound is exhausted. -/
def retryAux (t : Transport) (matchOp stop : Bytes → Bool) :
    Nat → Option String → Option Bytes → TState →
      Option String × Option Bytes × TState
  | 0, e, r, s => (e, r, s)
  | n + 1, _e, r, s =>
    match t.sendErr s.sends with
    | none =>
      let e2 := (t.recv s.recvs).1
      let r2 := resynchronize matchOp (t.recv s.recvs).2
      if stop r2 then (e2, some r2, ⟨s.sends + 1, s.recvs + 1⟩)
      else retryAux t matchOp stop n e2 (some r2) ⟨s.sends + 1, s.recvs + 1⟩
    | some err => retryAux t matchOp stop n (some err) r ⟨s.sends + 1, s.recvs⟩

/-- `wait_for_response_long(set_response)`: up to 5 keep-alive probes, break
as soon as the trimmed response's bytes at offsets 4-5 equal `set_response`. -/
def wait_for_response_long (t : Transport) (set_response : Bytes) (s : TState) :
    Option String × Option Bytes × TState :=
  retryAux t (opMatch set_response) (fun r => pySlice r 4 6 == set_response) 5 none none s

/-- The retry loop of `keep_alive`: up to 15 keep-alive messages, break at the
first response that is not `None` and not empty.  (The source passes the
integer `REC_TIMEOUT` as the expected opcode, so the opcode comparison inside
`wait_for_response_short` is the always-false bytes-vs-int comparison.) -/
def keep_alive_loop (t : Transport) (s : TState) :
    Option String × Option Bytes × TState :=
  retryAux t intMatch (fun r => !(r == [])) 15 none none s

theorem retryAux_state_le (t : Transport) (mo st : Bytes → Bool) :
    ∀ n e r s, (retryAux t mo st n e r s).2.2.sends ≤ s.sends + n ∧
      (retryAux t mo st n e r s).2.2.recvs ≤ s.recvs + n := by
  intro n
  induction n with
  | zero => intro e r s; simp [retryAux]
  | succ n ih =>
    intro e r s
    cases hsend : t.sendErr s.sends with
    | none =>
      simp only [retryAux, hsend]
      by_cases hstop : st (resynchronize mo (t.recv s.recvs).2) = true
      · simp only [hstop, if_true]
        constructor <;> omega
      · rw [Bool.not_eq_true] at hstop
        simp only [hstop, Bool.false_eq_true, if_false]
        have h := ih (t.recv s.recvs).1 (some (resynchronize mo (t.recv s.recvs).2))
          ⟨s.sends + 1, s.recvs + 1⟩
        dsimp only at h
        constructor <;> omega
    | some err =>
      simp only [retryAux, hsend]
      have h := ih (some err) r ⟨s.sends + 1, s.recvs⟩
      dsimp only at h
      constructor <;> omega

theorem retryAux_no_stop (t : Transport) (mo st : Bytes → Bool) :
    ∀ n e r s, 0 < n →
      (∀ i, i < n → t.sendErr (s.sends + i) = none ∧
        st (resynchronize mo (t.recv (s.recvs + i)).2) = false) →
      retryAux t mo st n e r s =
        ((t.recv (s.recvs + (n - 1))).1,
         some (resynchronize mo (t.recv (s.recvs + (n - 1))).2),
         ⟨s.sends + n, s.recvs + n⟩) := by
  intro n
  induction n with
  | zero => intro e r s h; omega
  | succ n ih =>
    intro e r s _ hall
    have h0 := hall 0 (by omega)
    rw [Nat.add_zero] at h0
    rw [Nat.add_zero] at h0
    simp only [retryAux, h0.1, h0.2, Bool.false_eq_true, if_false]
    rcases Nat.eq_zero_or_pos n with hn | hn
    · subst hn
      simp [retryAux]
    · have hall' : ∀ i, i < n →
          t.sendErr (s.sends + 1 + i) = none ∧
          st (resynchronize mo (t.recv (s.recvs + 1 + i)).2) = false := by
        intro i hi
        have h := hall (i + 1) (by omega)
        have e1 : s.sends + (i + 1) = s.sends + 1 + i := by omega
        have e2 : s.recvs + (i + 1) = s.recvs + 1 + i := by omega
        rw [e1, e2] at h
        exact h
      rw [ih (t.recv s.recvs).1 (some (resynchronize mo (t.recv s.recvs).2))
        ⟨s.sends + 1, s.recvs + 1⟩ hn hall']
      have e3 : s.recvs + 1 + (n - 1) = s.recvs + (n + 1 - 1) := by omega
      have e4 : s.sends + 1 + n = s.sends + (n + 1) := by omega
      have e5 : s.recvs + 1 + n = s.recvs + (n + 1) := by omega
      rw [e3, e4, e5]

theorem retryAux_first_stop (t : Transport) (mo st : Bytes → Bool) :
    ∀ k n e r s, k < n →
      (∀ i, i < k → t.sendErr (s.sends + i) = none ∧
        st (resynchronize mo (t.recv (s.recvs + i)).2) = false) →
      t.sendErr (s.sends + k) = none →
      st (resynchronize mo (t.recv (s.recvs + k)).2) = true →
      retryAux t mo st n e r s =
        ((t.recv (s.recvs + k)).1,
         some (resynchronize mo (t.recv (s.recvs + k)).2),
         ⟨s.sends + k + 1, s.recvs + k + 1⟩) := by
  intro k
  induction k with
  | zero =>
    intro n e r s hn _ hs hstop
    obtain ⟨m, rfl⟩ : ∃ m, n = m + 1 := ⟨n - 1, by omega⟩
    rw [Nat.add_zero] at hs hstop
    simp only [retryAux, hs, hstop, if_true]
    rfl
  | succ k ih =>
    intro n e r s hn hall hs hstop
    obtain ⟨m, rfl⟩ : ∃ m, n = m + 1 := ⟨n - 1, by omega⟩
    have h0 := hall 0 (by omega)
    rw [Nat.add_zero] at h0
    rw [Nat.add_zero] at h0
    simp only [retryAux, h0.1, h0.2, Bool.false_eq_true, if_false]
    have hall' : ∀ i, i < k →
        t.sendErr (s.sends + 1 + i) = none ∧
        st (resynchronize mo (t.recv (s.recvs + 1 + i)).2) = false := by
      intro i hi
      have h := hall (i + 1) (by omega)
      have e1 : s.sends + (i + 1) = s.sends + 1 + i := by omega
      have e2 : s.recvs + (i + 1) = s.recvs + 1 + i := by omega
      rw [e1, e2] at h
      exact h
    have hs' : t.sendErr (s.sends + 1 + k) = none := by
      have e1 : s.sends + (k + 1) = s.sends + 1 + k := by omega
      rw [e1] at hs
      exact hs
    have hstop' : st (resynchronize mo (t.recv (s.recvs + 1 + k)).2) = true := by
      have e2 : s.recvs + (k + 1) = s.recvs + 1 + k := by omega
      rw [e2] at hstop
      exact hstop
    rw [ih m (t.recv s.recvs).1 (some (resynchronize mo (t.recv s.recvs).2))
      ⟨s.sends + 1, s.recvs + 1⟩ (by omega) hall' hs' hstop']
    have e3 : s.recvs + 1 + k = s.recvs + (k + 1) := by omega
    have e4 : s.sends + 1 + k = s.sends + (k + 1) := by omega
    rw [e3, e4]

/-- C6: `wait_for_response_long(set_response)` sends at most 5 keep-alive
probes: (a) the transport counters grow by at most 5 sends and 5 receives;
(b) when all 5 attempts send successfully but no trimmed response carries the
expected opcode at offsets 4-5, the loop gives up after exactly 5 probes and
returns the last attempt's (possibly failing) error and response; (c) when
the first `k` attempts (k < 5) mismatch and attempt `k` matches, the loop
stops at attempt `k` with that attempt's error and response. -/
theorem wait_for_response_long_bounded :
    (∀ (t : Transport) (exp : Bytes) (s : TState),
      (wait_for_response_long t exp s).2.2.sends ≤ s.sends + 5 ∧
      (wait_for_response_long t exp s).2.2.recvs ≤ s.recvs + 5)
    ∧ (∀ (t : Transport) (exp : Bytes) (s : TState),
        (∀ i, i < 5 → t.sendErr (s.sends + i) = none ∧
          pySlice (resynchronize (opMatch exp) (t.recv (s.recvs + i)).2) 4 6 ≠ exp) →
        wait_for_response_long t exp s =
          ((t.recv (s.recvs + 4)).1,
           some (resynchronize (opMatch exp) (t.recv (s.recvs + 4)).2),
           ⟨s.sends + 5, s.recvs + 5⟩))
    ∧ (∀ (t : Transport) (exp : Bytes) (s : TState) (k : Nat), k < 5 →
        (∀ i, i < k → t.sendErr (s.sends + i) = none ∧
          pySlice (resynchronize (opMatch exp) (t.recv (s.recvs + i)).2) 4 6 ≠ exp) →
        t.sendErr (s.sends + k) = none →
        pySlice (resynchronize (opMatch exp) (t.recv (s.recvs + k)).2) 4 6 = exp →
        wait_for_response_long t exp s =
          ((t.recv (s.recvs + k)).1,
           some (resynchronize (opMatch exp) (t.recv (s.recvs + k)).2),
           ⟨s.sends + k + 1, s.recvs + k + 1⟩)) := by
  refine ⟨?_, ?_, ?_⟩
  · intro t exp s
    exact retryAux_state_le t (opMatch exp) (fun r => pySlice r 4 6 == exp) 5 none none s
  · intro t exp s hall
    have h := retryAux_no_stop t (opMatch exp) (fun r => pySlice r 4 6 == exp) 5 none none s
      (by omega) ?_
    · exact h
    · intro i hi
      refine ⟨(hall i hi).1, ?_⟩
      have hne := (hall i hi).2
      simpa using hne
  · intro t exp s k hk hall hs hstop
    have h := retryAux_first_stop t (opMatch exp) (fun r => pySlice r 4 6 == exp) k 5 none none s
      hk ?_ hs ?_
    · exact h
    · intro i hi
      refine ⟨(hall i hi).1, ?_⟩
      have hne := (hall i hi).2
      simpa using hne
    · simpa using hstop

/-- A transport whose receives always time out with no data: every
`serial_receive` yields `("Err1: No bytes from the device", b"")` and every
send succeeds. -/
def transNoData : Transport :=
  { sendErr := fun _ => none
    recv := fun _ => (some "Err1: No bytes from the device", []) }

/-- Witness for C6: on a transport that never returns data, the long wait for
the SetTxPower response gives up after exactly 5 probes (5 sends, 5 receives)
and returns the last-seen receive error and empty response. -/
theorem wait_for_response_long_bounded_witness :
    wait_for_response_long transNoData SET_TX_POWER ⟨0, 0⟩ =
      (some "Err1: No bytes from the device", some [], ⟨5, 5⟩) := by
  have h := wait_for_response_long_bounded.2.1 transNoData SET_TX_POWER ⟨0, 0⟩ ?_
  · exact h
  · intro i _
    refine ⟨rfl, ?_⟩
    show pySlice (resynchronize (opMatch SET_TX_POWER) []) 4 6 ≠ SET_TX_POWER
    decide

/-- C7: the retry loop of `keep_alive` sends at most 15 keep-alive messages:
(a) the transport counters grow by at most 15 sends and 15 receives, so the
loop terminates within 15 iterations for every sequence of transport
outcomes; (b) the loop stops at the first attempt whose trimmed response is
non-empty, returning that attempt's outcome; (c) when all 15 attempts send
fine and yield empty responses, it returns after exactly 15 attempts with
the last-seen outcome. -/
theorem keep_alive_bounded :
    (∀ (t : Transport) (s : TState),
      (keep_alive_loop t s).2.2.sends ≤ s.sends + 15 ∧
      (keep_alive_loop t s).2.2.recvs ≤ s.recvs + 15)
    ∧ (∀ (t : Transport) (s : TState) (k : Nat), k < 15 →
        (∀ i, i < k → t.sendErr (s.sends + i) = none ∧
          resynchronize intMatch (t.recv (s.recvs + i)).2 = []) →
        t.sendErr (s.sends + k) = none →
        resynchronize intMatch (t.recv (s.recvs + k)).2 ≠ [] →
        keep_alive_loop t s =
          ((t.recv (s.recvs + k)).1,
           some (resynchronize intMatch (t.recv (s.recvs + k)).2),
           ⟨s.sends + k + 1, s.recvs + k + 1⟩))
    ∧ (∀ (t : Transport) (s : TState),
        (∀ i, i < 15 → t.sendErr (s.sends + i) = none ∧
          resynchronize intMatch (t.recv (s.recvs + i)).2 = []) →
        keep_alive_loop t s =
          ((t.recv (s.recvs + 14)).1,
           some (resynchronize intMatch (t.recv (s.recvs + 14)).2),
           ⟨s.sends + 15, s.recvs + 15⟩)) := by
  refine ⟨?_, ?_, ?_⟩
  · intro t s
    exact retryAux_state_le t intMatch (fun r => !(r == [])) 15 none none s
  · intro t s k hk hall hs hstop
    have h := retryAux_first_stop t intMatch (fun r => !(r == [])) k 15 none none s
      hk ?_ hs ?_
    · exact h
    · intro i hi
      refine ⟨(hall i hi).1, ?_⟩
      have he := (hall i hi).2
      simpa using he
    · simpa using hstop
  · intro t s hall
    have h := retryAux_no_stop t intMatch (fun r => !(r == [])) 15 none none s
      (by omega) ?_
    · exact h
    · intro i hi
      refine ⟨(hall i hi).1, ?_⟩
      have he := (hall i hi).2
      simpa using he

/-- A transport that always answers immediately with a well-formed keep-alive
reply frame `F6 28 00 06 80 01 00 00`. -/
def transKaEcho : Transport :=
  { sendErr := fun _ => none
    recv := fun _ => (none, [0xf6, 0x28, 0x00, 0x06, 0x80, 0x01, 0x00, 0x00]) }

/-- Witness for C7: with an immediate keep-alive reply the loop stops after
the very first attempt (one send, one receive). -/
theorem keep_alive_bounded_witness :
    keep_alive_loop transKaEcho ⟨0, 0⟩ =
      (none, some [0xf6, 0x28, 0x00, 0x06, 0x80, 0x01, 0x00, 0x00], ⟨1, 1⟩) := by
  have h := keep_alive_bounded.2.1 transKaEcho ⟨0, 0⟩ 0 (by omega)
    (fun i hi => absurd hi (by omega)) rfl ?_
  · exact h
  · show resynchronize intMatch [0xf6, 0x28, 0x00, 0x06, 0x80, 0x01, 0x00, 0x00] ≠ []
    decide

/-- Errors returned by driver operations: a transport error string passed
through from `serial_send` / `serial_receive`, or one of the operation
specific messages (carrying the attempted values that the source formats
into the message text). -/
inductive DevError
  | transport (msg : String)
  | unableGetVersion
  | unableGetTemp
  | unableGetOpParams
  | unableSetOpParam (param : String) (value : Nat)
  | unableGetEventMask
  | unableSetEventMask
  | unableGetOpRegion
  | invalidOpRegion (region : String)
  | unableSetOpRegion
  | unableGetTxPower
  | unableSetTxPower (p1 p2 p3 p4 : ℚ)
  | unableGetTagReport
  | unableGetAntEnables
  | unableSetAntEnables
  | unableSetOpState (op_state : String)
  | unableGetOpState
  | unableKeepAlive
deriving DecidableEq

/-- The four revision fields parsed by `get_version` (raw bytes standing for
the UTF-8 decoded strings). -/
structure VersionInfo where
  firmwareRev : Bytes
  sdkRev : Bytes
  softwareRev : Bytes
  hardwareRev : Bytes
deriving DecidableEq

/-- The four per-antenna powers parsed by `get_tx_power` (dBm, ÷100). -/
structure TxPowerInfo where
  ant1power : ℚ
  ant2power : ℚ
  ant3power : ℚ
  ant4power : ℚ
deriving DecidableEq

/-- The four antenna-enable bits parsed by `get_ant_enables`. -/
structure AntEnablesInfo where
  ant1enables : Bool
  ant2enables : Bool
  ant3enables : Bool
  ant4enables : Bool
deriving DecidableEq

/-- The six event bits parsed by `get_event_mask`. -/
structure EventMaskInfo where
  tag_seen : Bool
  tag_removed : Bool
  tag_power_change : Bool
  tag_report_timeout : Bool
  gen2_op_completed : Bool
  gen2_op_timeout : Bool
deriving DecidableEq

/-- The pair parsed by `get_operational_params`. -/
structure OpParamInfo where
  param : String
  value : Nat
deriving DecidableEq

/-- The record parsed by `get_tag_report`. -/
structure TagReportInfo where
  replyReason : String
  powerRSSIRaw : Int
  powerdBm : Int
  timestamp : Nat
  antenna : Nat
  epcLength : Nat
deriving DecidableEq

/-- `bit_status(x, n)`: whether bit `n` of `x` is set (`x & 1 << n != 0`). -/
def bit_status (x n : Nat) : Bool := x &&& (1 <<< n) != 0

/-- `OPParams.TAG_TIMEOUT`. -/
def TAG_TIMEOUT : String := "Tag Time Out"

/-- `OPParams.TAG_POWER_CHANGE_THRESHOLD`. -/
def TAG_POWER_CHANGE_THRESHOLD : String := "Tag_Power_Change_Threshold"

/-- `OPParams.TAG_REPORT_TIMEOUT`. -/
def TAG_REPORT_TIMEOUT : String := "Tag_Report_Timeout"

/-- `OPParams.TRANSIENT_DETECT_TIME`. -/
def TRANSIENT_DETECT_TIME : String := "Transient_Detect_Time"

/-- `OPParams.TRANSIENT_COUNT`. -/
def TRANSIENT_COUNT : String := "Transient_Count"

/-- `OPParams.TRANSIENT_INTERVAL`. -/
def TRANSIENT_INTERVAL : String := "Transient_Interval"

/-- `OPParams.GEN2_OP_TIMEOUT`. -/
def GEN2_OP_TIMEOUT : String := "Gen2_Op_Timeout"

/-- `OPParams.RESPONSE_NOT_DEFINED`. -/
def RESPONSE_NOT_DEFINED : String := "Response_Not_Defined"

/-- `code_to_param` on a 4-hex-digit string code. -/
def code_to_param (code : String) : String :=
  if code = "0001" then TAG_TIMEOUT
  else if code = "0002" then TAG_POWER_CHANGE_THRESHOLD
  else if code = "0003" then TAG_REPORT_TIMEOUT
  else if code = "0004" then TRANSIENT_DETECT_TIME
  else if code = "0005" then TRANSIENT_COUNT
  else if code = "0006" then TRANSIENT_INTERVAL
  else if code = "0007" then GEN2_OP_TIMEOUT
  else RESPONSE_NOT_DEFINED

/-- `code_to_param` on an integer code: the source first formats the integer
as `'{:04x}'`, so the string match is equivalent to this integer match. -/
def code_to_param_int (code : Nat) : String :=
  if code = 1 then TAG_TIMEOUT
  else if code = 2 then TAG_POWER_CHANGE_THRESHOLD
  else if code = 3 then TAG_REPORT_TIMEOUT
  else if code = 4 then TRANSIENT_DETECT_TIME
  else if code = 5 then TRANSIENT_COUNT
  else if code = 6 then TRANSIENT_INTERVAL
  else if code = 7 then GEN2_OP_TIMEOUT
  else RESPONSE_NOT_DEFINED

/-- The operating-state decoding table of `get_op_state`. -/
def op_state_name (rep : Nat) : String :=
  if rep = 0 then "Idle"
  else if rep = 1 then "CW Test"
  else if rep = 2 then "PRBS Test"
  else if rep = 3 then "ETSI Burst Test"
  else if rep = 4 then "Tag Read"
  else if rep = 5 then "Over Temp"
  else if rep = 6 then "Reader_Error"
  else if rep = 7 then "Hard_Reset"
  else if rep = 8 then "SW_Mismatch"
  else if rep = 9 then "Bootloader"
  else "Not defined"

/-- The reply-reason decoding table of `get_tag_report`. -/
def reply_reason_name (rep : Nat) : String :=
  if rep = 1 then "New Tag Seen"
  else if rep = 2 then "Tag Removed"
  else if rep = 3 then "Power Changed"
  else if rep = 4 then "GEN2 Op Completed"
  else if rep = 5 then "Tag Report Timeout"
  else if rep = 6 then "Report Requested"
  else "Not defined"

/-- `create_event_mask(...)`: the source builds the binary numeral string
`'00' + g2t + g2c + trt + tpc + trm + ts` from the 0/1 flag digits and parses
it base 2; for 0/1 digits that is this weighted sum. -/
def create_event_mask (tag_seen tag_removed tag_power_change tag_report_timeout gen2_op_completed gen2_op_timeout : Nat) : Nat :=
  32 * gen2_op_timeout + 16 * gen2_op_completed + 8 * tag_report_timeout +
    4 * tag_power_change + 2 * tag_removed + tag_seen

/-- The antenna-enables packing inside `set_ant_enables`: binary numeral
string `'0000' + a4 + a3 + a2 + a1` parsed base 2. -/
def create_ant_enables (ant1Enables ant2Enables ant3Enables ant4Enables : Nat) : Nat :=
  8 * ant4Enables + 4 * ant3Enables + 2 * ant2Enables + ant1Enables

/-- `get_version()`: send, short wait, check status and echoed opcode, parse
the four revision fields; an empty or failing response yields the
unable-to-get error and no value. -/
def get_version (t : Transport) (s : TState) :
    Option DevError × Option VersionInfo × TState :=
  match send_cmd t s with
  | (some err, s1) => (some (.transport err), none, s1)
  | (none, s1) =>
    match wait_for_response_short t (opMatch GET_VERSION) s1 with
    | (some err, _, s2) => (some (.transport err), none, s2)
    | (none, res, s2) =>
      if pySlice res 6 8 == STATUS_SUCCESS && pySlice res 4 6 == GET_VERSION then
        (none, some ⟨pySlice res 8 13, pySlice res 14 19,
          pySlice res 20 25, pySlice res 26 29⟩, s2)
      else (some .unableGetVersion, none, s2)

/-- `get_temp()`: temperature is the big-endian payload `res[8:]` divided by
100 (exact rational standing for the Python float division). -/
def get_temp (t : Transport) (s : TState) :
    Option DevError × Option ℚ × TState :=
  match send_cmd t s with
  | (some err, s1) => (some (.transport err), none, s1)
  | (none, s1) =>
    match wait_for_response_short t (opMatch GET_TEMP) s1 with
    | (some err, _, s2) => (some (.transport err), none, s2)
    | (none, res, s2) =>
      if pySlice res 6 8 == STATUS_SUCCESS && pySlice res 4 6 == GET_TEMP then
        (none, some ((bytesToNatBE (res.drop 8) : ℚ) / 100), s2)
      else (some .unableGetTemp, none, s2)

/-- `get_op_region()`: the region name is `res[8:11]` (bytes standing for the
UTF-8 decoded string). -/
def get_op_region (t : Transport) (s : TState) :
    Option DevError × Option Bytes × TState :=
  match send_cmd t s with
  | (some err, s1) => (some (.transport err), none, s1)
  | (none, s1) =>
    match wait_for_response_short t (opMatch GET_OP_REGION) s1 with
    | (some err, _, s2) => (some (.transport err), none, s2)
    | (none, res, s2) =>
      if pySlice res 6 8 == STATUS_SUCCESS && pySlice res 4 6 == GET_OP_REGION then
        (none, some (pySlice res 8 11), s2)
      else (some .unableGetOpRegion, none, s2)

/-- `get_tx_power()`: four big-endian 16-bit words, each divided by 100. -/
def get_tx_power (t : Transport) (s : TState) :
    Option DevError × Option TxPowerInfo × TState :=
  match send_cmd t s with
  | (some err, s1) => (some (.transport err), none, s1)
  | (none, s1) =>
    match wait_for_response_short t (opMatch GET_TX_POWER) s1 with
    | (some err, _, s2) => (some (.transport err), none, s2)
    | (none, res, s2) =>
      if pySlice res 6 8 == STATUS_SUCCESS && pySlice res 4 6 == GET_TX_POWER then
        (none, some ⟨(bytesToNatBE (pySlice res 8 10) : ℚ) / 100,
          (bytesToNatBE (pySlice res 10 12) : ℚ) / 100,
          (bytesToNatBE (pySlice res 12 14) : ℚ) / 100,
          (bytesToNatBE (pySlice res 14 16) : ℚ) / 100⟩, s2)
      else (some .unableGetTxPower, none, s2)

/-- `get_ant_enables()`: bit vector `res[8:]`, bits 0-3. -/
def get_ant_enables (t : Transport) (s : TState) :
    Option DevError × Option AntEnablesInfo × TState :=
  match send_cmd t s with
  | (some err, s1) => (some (.transport err), none, s1)
  | (none, s1) =>
    match wait_for_response_short t (opMatch GET_ANT_ENABLES) s1 with
    | (some err, _, s2) => (some (.transport err), none, s2)
    | (none, res, s2) =>
      if pySlice res 6 8 == STATUS_SUCCESS && pySlice res 4 6 == GET_ANT_ENABLES then
        (none, some ⟨bit_status (bytesToNatBE (res.drop 8)) 0,
          bit_status (bytesToNatBE (res.drop 8)) 1,
          bit_status (bytesToNatBE (res.drop 8)) 2,
          bit_status (bytesToNatBE (res.drop 8)) 3⟩, s2)
      else (some .unableGetAntEnables, none, s2)

/-- `get_event_mask()`: 32-bit mask `res[8:]`, bits 0-5. -/
def get_event_mask (t : Transport) (s : TState) :
    Option DevError × Option EventMaskInfo × TState :=
  match send_cmd t s with
  | (some err, s1) => (some (.transport err), none, s1)
  | (none, s1) =>
    match wait_for_response_short t (opMatch GET_EVENT_MASK) s1 with
    | (some err, _, s2) => (some (.transport err), none, s2)
    | (none, res, s2) =>
      if pySlice res 6 8 == STATUS_SUCCESS && pySlice res 4 6 == GET_EVENT_MASK then
        (none, some ⟨bit_status (bytesToNatBE (res.drop 8)) 0,
          bit_status (bytesToNatBE (res.drop 8)) 1,
          bit_status (bytesToNatBE (res.drop 8)) 2,
          bit_status (bytesToNatBE (res.drop 8)) 3,
          bit_status (bytesToNatBE (res.drop 8)) 4,
          bit_status (bytesToNatBE (res.drop 8)) 5⟩, s2)
      else (some .unableGetEventMask, none, s2)

/-- `get_op_state()`: state code is `res[10:12]`, decoded via the state
table. -/
def get_op_state (t : Transport) (s : TState) :
    Option DevError × Option String × TState :=
  match send_cmd t s with
  | (some err, s1) => (some (.transport err), none, s1)
  | (none, s1) =>
    match wait_for_response_short t (opMatch GET_OP_STATE) s1 with
    | (some err, _, s2) => (some (.transport err), none, s2)
    | (none, res, s2) =>
      if pySlice res 6 8 == STATUS_SUCCESS && pySlice res 4 6 == GET_OP_STATE then
        (none, some (op_state_name (bytesToNatBE (pySlice res 10 12))), s2)
      else (some .unableGetOpState, none, s2)

/-- `get_operational_params(code)`: echoed code `res[8:10]` resolved through
the parameter table, value `res[10:]`. -/
def get_operational_params (t : Transport) (code : String) (s : TState) :
    Option DevError × Option OpParamInfo × TState :=
  match send_cmd t s with
  | (some err, s1) => (some (.transport err), none, s1)
  | (none, s1) =>
    match wait_for_response_short t (opMatch GET_OP_PARAMS) s1 with
    | (some err, _, s2) => (some (.transport err), none, s2)
    | (none, res, s2) =>
      if pySlice res 6 8 == STATUS_SUCCESS && pySlice res 4 6 == GET_OP_PARAMS then
        (none, some ⟨code_to_param_int (bytesToNatBE (pySlice res 8 10)),
          bytesToNatBE (res.drop 10)⟩, s2)
      else (some .unableGetOpParams, none, s2)

/-- `get_tag_report()`: reply reason `res[8:10]` decoded through the reason
table, signed RSSI and dBm words, 32-bit timestamp, antenna id, and the
remaining bytes as `epcLength`. -/
def get_tag_report (t : Transport) (s : TState) :
    Option DevError × Option TagReportInfo × TState :=
  match send_cmd t s with
  | (some err, s1) => (some (.transport err), none, s1)
  | (none, s1) =>
    match wait_for_response_short t (opMatch GET_TAG_REPORT) s1 with
    | (some err, _, s2) => (some (.transport err), none, s2)
    | (none, res, s2) =>
      if pySlice res 6 8 == STATUS_SUCCESS && pySlice res 4 6 == GET_TAG_REPORT then
        (none, some ⟨reply_reason_name (bytesToNatBE (pySlice res 8 10)),
          bytesToIntBE (pySlice res 10 12),
          bytesToIntBE (pySlice res 12 14),
          bytesToNatBE (pySlice res 14 18),
          bytesToNatBE (pySlice res 18 20),
          bytesToNatBE (res.drop 20)⟩, s2)
      else (some .unableGetTagReport, none, s2)

/-- `set_op_region(opRegion)`: send, one short wait and NO long-wait
fallback; success iff status is `00 00` and the echoed opcode is
SetOpRegion; a non-success status yields the invalid-region error naming the
attempted region; a success status with a wrong echoed opcode yields the
generic unable-to-set error. -/
def set_op_region (t : Transport) (opRegion : String) (s : TState) :
    Option DevError × TState :=
  match send_cmd t s with
  | (some err, s1) => (some (.transport err), s1)
  | (none, s1) =>
    match wait_for_response_short t (opMatch SET_OP_REGION) s1 with
    | (some err, _, s2) => (some (.transport err), s2)
    | (none, res, s2) =>
      if pySlice res 6 8 == STATUS_SUCCESS && pySlice res 4 6 == SET_OP_REGION then
        (none, s2)
      else if !(pySlice res 6 8 == STATUS_SUCCESS) then
        (some (.invalidOpRegion opRegion), s2)
      else (some .unableSetOpRegion, s2)

/-- `set_tx_power(p1..p4)`: send; one short wait; if the trimmed response is
empty, fall back to `wait_for_response_long`; the final error condition is
the source's `not res[6:8] == STATUS_SUCCESS and res[4:6] == SET_TX_POWER`,
where the `not` binds only to the status comparison.  (`res` can only be
`None` here together with a non-`None` error, so the final comparison is
modelled on `r2.getD []`.) -/
def set_tx_power (t : Transport) (p1 p2 p3 p4 : ℚ) (s : TState) :
    Option DevError × TState :=
  match send_cmd t s with
  | (some err, s1) => (some (.transport err), s1)
  | (none, s1) =>
    match wait_for_response_short t (opMatch SET_TX_POWER) s1 with
    | (e1, r1, s2) =>
      match (if r1 == [] then wait_for_response_long t SET_TX_POWER s2
             else (e1, some r1, s2)) with
      | (some err, _, s3) => (some (.transport err), s3)
      | (none, r2, s3) =>
        if (!(pySlice (r2.getD []) 6 8 == STATUS_SUCCESS)) &&
            pySlice (r2.getD []) 4 6 == SET_TX_POWER then
          (some (.unableSetTxPower p1 p2 p3 p4), s3)
        else (none, s3)

/-- `set_ant_enables(a1..a4)`: same shape as `set_tx_power`, with the
SetAntEnables opcode and error. -/
def set_ant_enables (t : Transport) (a1 a2 a3 a4 : Nat) (s : TState) :
    Option DevError × TState :=
  match send_cmd t s with
  | (some err, s1) => (some (.transport err), s1)
  | (none, s1) =>
    match wait_for_response_short t (opMatch SET_ANT_ENABLES) s1 with
    | (e1, r1, s2) =>
      match (if r1 == [] then wait_for_response_long t SET_ANT_ENABLES s2
             else (e1, some r1, s2)) with
      | (some err, _, s3) => (some (.transport err), s3)
      | (none, r2, s3) =>
        if (!(pySlice (r2.getD []) 6 8 == STATUS_SUCCESS)) &&
            pySlice (r2.getD []) 4 6 == SET_ANT_ENABLES then
          (some .unableSetAntEnables, s3)
        else (none, s3)

/-- `set_op_state(op_state)`: same shape as `set_tx_power`, with the
SetOpState opcode and error. -/
def set_op_state (t : Transport) (op_state : String) (s : TState) :
    Option DevError × TState :=
  match send_cmd t s with
  | (some err, s1) => (some (.transport err), s1)
  | (none, s1) =>
    match wait_for_response_short t (opMatch SET_OP_STATE) s1 with
    | (e1, r1, s2) =>
      match (if r1 == [] then wait_for_response_long t SET_OP_STATE s2
             else (e1, some r1, s2)) with
      | (some err, _, s3) => (some (.transport err), s3)
      | (none, r2, s3) =>
        if (!(pySlice (r2.getD []) 6 8 == STATUS_SUCCESS)) &&
            pySlice (r2.getD []) 4 6 == SET_OP_STATE then
          (some (.unableSetOpState op_state), s3)
        else (none, s3)

/-- `set_operational_param(code, value)`: same shape as `set_tx_power`, with
the SetOpParams opcode; the error names the parameter resolved through the
table and the attempted value. -/
def set_operational_param (t : Transport) (code : String) (value : Nat) (s : TState) :
    Option DevError × TState :=
  match send_cmd t s with
  | (some err, s1) => (some (.transport err), s1)
  | (none, s1) =>
    match wait_for_response_short t (opMatch SET_OP_PARAMS) s1 with
    | (e1, r1, s2) =>
      match (if r1 == [] then wait_for_response_long t SET_OP_PARAMS s2
             else (e1, some r1, s2)) with
      | (some err, _, s3) => (some (.transport err), s3)
      | (none, r2, s3) =>
        if (!(pySlice (r2.getD []) 6 8 == STATUS_SUCCESS)) &&
            pySlice (r2.getD []) 4 6 == SET_OP_PARAMS then
          (some (.unableSetOpParam (code_to_param code) value), s3)
        else (none, s3)

/-- `set_event_mask(six flags)`: same shape as `set_tx_power`, with the
SetEventMask opcode; note the source compares the 4-byte slice `res[6:10]`
against the 2-byte success code. -/
def set_event_mask (t : Transport) (ts trm tpc trt g2c g2t : Nat) (s : TState) :
    Option DevError × TState :=
  match send_cmd t s with
  | (some err, s1) => (some (.transport err), s1)
  | (none, s1) =>
    match wait_for_response_short t (opMatch SET_EVENT_MASK) s1 with
    | (e1, r1, s2) =>
      match (if r1 == [] then wait_for_response_long t SET_EVENT_MASK s2
             else (e1, some r1, s2)) with
      | (some err, _, s3) => (some (.transport err), s3)
      | (none, r2, s3) =>
        if (!(pySlice (r2.getD []) 6 10 == STATUS_SUCCESS)) &&
            pySlice (r2.getD []) 4 6 == SET_EVENT_MASK then
          (some .unableSetEventMask, s3)
        else (none, s3)

theorem resynchronize_nil (m : Bytes → Bool) : resynchronize m [] = [] := rfl

/-- C2 (code bug): the source's set-operation error condition is
`not res[6:8] == STATUS_SUCCESS and res[4:6] == <opcode>`, where Python binds
`not` only to the status comparison.  Hence a response whose status is the
success code but whose echoed opcode does not match is accepted as success:
with a transport that answers every request with the keep-alive reply frame
`F6 28 00 06 80 01 00 00` (success status, opcode `80 01`), `set_tx_power`,
`set_ant_enables` and `set_event_mask` all return no error, although the
claim requires an opcode match for success. -/
theorem set_operations_accept_opcode_mismatch :
    set_tx_power transKaEcho 10 10 10 10 ⟨0, 0⟩ = (none, ⟨1, 1⟩) ∧
    set_ant_enables transKaEcho 1 1 1 1 ⟨0, 0⟩ = (none, ⟨1, 1⟩) ∧
    set_event_mask transKaEcho 1 1 1 1 1 1 ⟨0, 0⟩ = (none, ⟨1, 1⟩) ∧
    pySlice [0xf6, 0x28, 0x00, 0x06, 0x80, 0x01, 0x00, 0x00] 4 6 ≠ SET_TX_POWER ∧
    pySlice [0xf6, 0x28, 0x00, 0x06, 0x80, 0x01, 0x00, 0x00] 6 8 = STATUS_SUCCESS := by
  refine ⟨by decide, by decide, by decide, by decide, by decide⟩

/-- A transport where every receive succeeds and yields empty bytes. -/
def transEmptyOk : Transport :=
  { sendErr := fun _ => none
    recv := fun _ => (none, []) }

/-- Counterexample for C3: `set_op_region`, on a short wait that returns the
empty response, does NOT fall back to the long wait: on the all-empty
transport it declares failure (the invalid-region error) after exactly one
send and one receive, while the long wait on the same transport would have
performed five further keep-alive sends and receives. -/
theorem set_op_region_no_fallback :
    set_op_region transEmptyOk "FCC" ⟨0, 0⟩ =
      (some (.invalidOpRegion "FCC"), ⟨1, 1⟩) ∧
    (wait_for_response_long transEmptyOk SET_OP_REGION ⟨1, 1⟩).2.2 = ⟨6, 6⟩ := by
  refine ⟨by decide, by decide⟩

/-- C3 (amended): each of `set_tx_power`, `set_ant_enables`, `set_op_state`,
`set_operational_param` and `set_event_mask` — but not `set_op_region` —
falls back to `wait_for_response_long` (with the operation's expected
response opcode) when the immediate short wait yields the empty response,
and its outcome is then determined by the long wait's result. -/
theorem set_operations_empty_fallback :
    (∀ (t : Transport) (s : TState) (p1 p2 p3 p4 : ℚ),
      t.sendErr s.sends = none →
      resynchronize (opMatch SET_TX_POWER) (t.recv s.recvs).2 = [] →
      set_tx_power t p1 p2 p3 p4 s =
        (match wait_for_response_long t SET_TX_POWER ⟨s.sends + 1, s.recvs + 1⟩ with
         | (some err, _, s3) => (some (.transport err), s3)
         | (none, r2, s3) =>
           if (!(pySlice (r2.getD []) 6 8 == STATUS_SUCCESS)) &&
               pySlice (r2.getD []) 4 6 == SET_TX_POWER then
             (some (.unableSetTxPower p1 p2 p3 p4), s3)
           else (none, s3)))
    ∧ (∀ (t : Transport) (s : TState) (a1 a2 a3 a4 : Nat),
      t.sendErr s.sends = none →
      resynchronize (opMatch SET_ANT_ENABLES) (t.recv s.recvs).2 = [] →
      set_ant_enables t a1 a2 a3 a4 s =
        (match wait_for_response_long t SET_ANT_ENABLES ⟨s.sends + 1, s.recvs + 1⟩ with
         | (some err, _, s3) => (some (.transport err), s3)
         | (none, r2, s3) =>
           if (!(pySlice (r2.getD []) 6 8 == STATUS_SUCCESS)) &&
               pySlice (r2.getD []) 4 6 == SET_ANT_ENABLES then
             (some .unableSetAntEnables, s3)
           else (none, s3)))
    ∧ (∀ (t : Transport) (s : TState) (op_state : String),
      t.sendErr s.sends = none →
      resynchronize (opMatch SET_OP_STATE) (t.recv s.recvs).2 = [] →
      set_op_state t op_state s =
        (match wait_for_response_long t SET_OP_STATE ⟨s.sends + 1, s.recvs + 1⟩ with
         | (some err, _, s3) => (some (.transport err), s3)
         | (none, r2, s3) =>
           if (!(pySlice (r2.getD []) 6 8 == STATUS_SUCCESS)) &&
               pySlice (r2.getD []) 4 6 == SET_OP_STATE then
             (some (.unableSetOpState op_state), s3)
           else (none, s3)))
    ∧ (∀ (t : Transport) (s : TState) (code : String) (value : Nat),
      t.sendErr s.sends = none →
      resynchronize (opMatch SET_OP_PARAMS) (t.recv s.recvs).2 = [] →
      set_operational_param t code value s =
        (match wait_for_response_long t SET_OP_PARAMS ⟨s.sends + 1, s.recvs + 1⟩ with
         | (some err, _, s3) => (some (.transport err), s3)
         | (none, r2, s3) =>
           if (!(pySlice (r2.getD []) 6 8 == STATUS_SUCCESS)) &&
               pySlice (r2.getD []) 4 6 == SET_OP_PARAMS then
             (some (.unableSetOpParam (code_to_param code) value), s3)
           else (none, s3)))
    ∧ (∀ (t : Transport) (s : TState) (ts trm tpc trt g2c g2t : Nat),
      t.sendErr s.sends = none →
      resynchronize (opMatch SET_EVENT_MASK) (t.recv s.recvs).2 = [] →
      set_event_mask t ts trm tpc trt g2c g2t s =
        (match wait_for_response_long t SET_EVENT_MASK ⟨s.sends + 1, s.recvs + 1⟩ with
         | (some err, _, s3) => (some (.transport err), s3)
         | (none, r2, s3) =>
           if (!(pySlice (r2.getD []) 6 10 == STATUS_SUCCESS)) &&
               pySlice (r2.getD []) 4 6 == SET_EVENT_MASK then
             (some .unableSetEventMask, s3)
           else (none, s3))) := by
  refine ⟨?_, ?_, ?_, ?_, ?_⟩
  · intro t s p1 p2 p3 p4 hsend hres
    simp only [set_tx_power, send_cmd, hsend, wait_for_response_short, hres,
      beq_self_eq_true, if_true]
  · intro t s a1 a2 a3 a4 hsend hres
    simp only [set_ant_enables, send_cmd, hsend, wait_for_response_short, hres,
      beq_self_eq_true, if_true]
  · intro t s op_state hsend hres
    simp only [set_op_state, send_cmd, hsend, wait_for_response_short, hres,
      beq_self_eq_true, if_true]
  · intro t s code value hsend hres
    simp only [set_operational_param, send_cmd, hsend, wait_for_response_short, hres,
      beq_self_eq_true, if_true]
  · intro t s ts trm tpc trt g2c g2t hsend hres
    simp only [set_event_mask, send_cmd, hsend, wait_for_response_short, hres,
      beq_self_eq_true, if_true]

/-- Witness for C3: `set_tx_power` on the all-empty transport takes the
long-wait fallback; the five keep-alive probes of the long wait run (final
state: 6 sends, 6 receives) and, because of the `not`-precedence condition,
the empty final response is accepted with no error. -/
theorem set_operations_empty_fallback_witness :
    set_tx_power transEmptyOk 10 10 10 10 ⟨0, 0⟩ = (none, ⟨6, 6⟩) := by
  rw [set_operations_empty_fallback.1 transEmptyOk ⟨0, 0⟩ 10 10 10 10 rfl (by decide)]
  decide

/-- A transport that always answers with the GetTemperature response frame
`F6 28 00 08 80 13 00 00 10 64`. -/
def transTempFrame : Transport :=
  { sendErr := fun _ => none
    recv := fun _ => (none, [0xf6, 0x28, 0x00, 0x08, 0x80, 0x13, 0x00, 0x00, 0x10, 0x64]) }

/-- Counterexample for C5: the GetTemperature scenario response does not
parse to 42.12 (= 4212/100). -/
theorem get_temp_scenario_not_42_12 :
    (get_temp transTempFrame ⟨0, 0⟩).2.1 ≠ some ((4212 : ℚ) / 100) := by
  have hres : resynchronize (opMatch GET_TEMP)
      [0xf6, 0x28, 0x00, 0x08, 0x80, 0x13, 0x00, 0x00, 0x10, 0x64] =
      [0xf6, 0x28, 0x00, 0x08, 0x80, 0x13, 0x00, 0x00, 0x10, 0x64] := by decide
  simp only [get_temp, send_cmd, transTempFrame, wait_for_response_short, hres]
  norm_num [pySlice, STATUS_SUCCESS, GET_TEMP, bytesToNatBE]

/-- C5 (amended): parsing the GetTemperature response
`F6 28 00 08 80 13 00 00 10 64` (success status, opcode `80 13`) yields the
temperature 4196 / 100 = 41.96, the big-endian payload 0x1064 = 4196 divided
by 100. -/
theorem get_temp_scenario :
    get_temp transTempFrame ⟨0, 0⟩ = (none, some ((4196 : ℚ) / 100), ⟨1, 1⟩) := by
  have hres : resynchronize (opMatch GET_TEMP)
      [0xf6, 0x28, 0x00, 0x08, 0x80, 0x13, 0x00, 0x00, 0x10, 0x64] =
      [0xf6, 0x28, 0x00, 0x08, 0x80, 0x13, 0x00, 0x00, 0x10, 0x64] := by decide
  simp only [get_temp, send_cmd, transTempFrame, wait_for_response_short, hres]
  norm_num [pySlice, STATUS_SUCCESS, GET_TEMP, bytesToNatBE]

/-- C10: every get operation, when the transport yields empty bytes with no
transport error, returns its descriptive error and no value (rather than
raising): the empty buffer resynchronizes to itself, and the empty status
and opcode slices fail both comparisons, routing control to the error
branch. -/
theorem get_operations_empty_response :
    (∀ (t : Transport) (s : TState), t.sendErr s.sends = none →
      t.recv s.recvs = (none, []) →
      get_version t s = (some .unableGetVersion, none, ⟨s.sends + 1, s.recvs + 1⟩))
    ∧ (∀ (t : Transport) (s : TState), t.sendErr s.sends = none →
      t.recv s.recvs = (none, []) →
      get_temp t s = (some .unableGetTemp, none, ⟨s.sends + 1, s.recvs + 1⟩))
    ∧ (∀ (t : Transport) (s : TState), t.sendErr s.sends = none →
      t.recv s.recvs = (none, []) →
      get_op_region t s = (some .unableGetOpRegion, none, ⟨s.sends + 1, s.recvs + 1⟩))
    ∧ (∀ (t : Transport) (s : TState), t.sendErr s.sends = none →
      t.recv s.recvs = (none, []) →
      get_tx_power t s = (some .unableGetTxPower, none, ⟨s.sends + 1, s.recvs + 1⟩))
    ∧ (∀ (t : Transport) (s : TState), t.sendErr s.sends = none →
      t.recv s.recvs = (none, []) →
      get_ant_enables t s = (some .unableGetAntEnables, none, ⟨s.sends + 1, s.recvs + 1⟩))
    ∧ (∀ (t : Transport) (s : TState), t.sendErr s.sends = none →
      t.recv s.recvs = (none, []) →
      get_op_state t s = (some .unableGetOpState, none, ⟨s.sends + 1, s.recvs + 1⟩))
    ∧ (∀ (t : Transport) (s : TState), t.sendErr s.sends = none →
      t.recv s.recvs = (none, []) →
      get_event_mask t s = (some .unableGetEventMask, none, ⟨s.sends + 1, s.recvs + 1⟩))
    ∧ (∀ (t : Transport) (s : TState) (code : String), t.sendErr s.sends = none →
      t.recv s.recvs = (none, []) →
      get_operational_params t code s =
        (some .unableGetOpParams, none, ⟨s.sends + 1, s.recvs + 1⟩))
    ∧ (∀ (t : Transport) (s : TState), t.sendErr s.sends = none →
      t.recv s.recvs = (none, []) →
      get_tag_report t s = (some .unableGetTagReport, none, ⟨s.sends + 1, s.recvs + 1⟩)) := by
  refine ⟨?_, ?_, ?_, ?_, ?_, ?_, ?_, ?_, ?_⟩
  · intro t s hs hr
    simp [get_version, send_cmd, wait_for_response_short, hs, hr, resynchronize_nil,
      pySlice, STATUS_SUCCESS]
  · intro t s hs hr
    simp [get_temp, send_cmd, wait_for_response_short, hs, hr, resynchronize_nil,
      pySlice, STATUS_SUCCESS]
  · intro t s hs hr
    simp [get_op_region, send_cmd, wait_for_response_short, hs, hr, resynchronize_nil,
      pySlice, STATUS_SUCCESS]
  · intro t s hs hr
    simp [get_tx_power, send_cmd, wait_for_response_short, hs, hr, resynchronize_nil,
      pySlice, STATUS_SUCCESS]
  · intro t s hs hr
    simp [get_ant_enables, send_cmd, wait_for_response_short, hs, hr, resynchronize_nil,
      pySlice, STATUS_SUCCESS]
  · intro t s hs hr
    simp [get_op_state, send_cmd, wait_for_response_short, hs, hr, resynchronize_nil,
      pySlice, STATUS_SUCCESS]
  · intro t s hs hr
    simp [get_event_mask, send_cmd, wait_for_response_short, hs, hr, resynchronize_nil,
      pySlice, STATUS_SUCCESS]
  · intro t s code hs hr
    simp [get_operational_params, send_cmd, wait_for_response_short, hs, hr,
      resynchronize_nil, pySlice, STATUS_SUCCESS]
  · intro t s hs hr
    simp [get_tag_report, send_cmd, wait_for_response_short, hs, hr, resynchronize_nil,
      pySlice, STATUS_SUCCESS]

/-- Witness for C10: all nine get operations on the all-empty transport. -/
theorem get_operations_empty_response_witness :
    get_version transEmptyOk ⟨0, 0⟩ = (some .unableGetVersion, none, ⟨1, 1⟩) ∧
    get_temp transEmptyOk ⟨0, 0⟩ = (some .unableGetTemp, none, ⟨1, 1⟩) ∧
    get_op_region transEmptyOk ⟨0, 0⟩ = (some .unableGetOpRegion, none, ⟨1, 1⟩) ∧
    get_tx_power transEmptyOk ⟨0, 0⟩ = (some .unableGetTxPower, none, ⟨1, 1⟩) ∧
    get_ant_enables transEmptyOk ⟨0, 0⟩ = (some .unableGetAntEnables, none, ⟨1, 1⟩) ∧
    get_op_state transEmptyOk ⟨0, 0⟩ = (some .unableGetOpState, none, ⟨1, 1⟩) ∧
    get_event_mask transEmptyOk ⟨0, 0⟩ = (some .unableGetEventMask, none, ⟨1, 1⟩) ∧
    get_operational_params transEmptyOk "0003" ⟨0, 0⟩ =
      (some .unableGetOpParams, none, ⟨1, 1⟩) ∧
    get_tag_report transEmptyOk ⟨0, 0⟩ = (some .unableGetTagReport, none, ⟨1, 1⟩) :=
  ⟨get_operations_empty_response.1 transEmptyOk ⟨0, 0⟩ rfl rfl,
   get_operations_empty_response.2.1 transEmptyOk ⟨0, 0⟩ rfl rfl,
   get_operations_empty_response.2.2.1 transEmptyOk ⟨0, 0⟩ rfl rfl,
   get_operations_empty_response.2.2.2.1 transEmptyOk ⟨0, 0⟩ rfl rfl,
   get_operations_empty_response.2.2.2.2.1 transEmptyOk ⟨0, 0⟩ rfl rfl,
   get_operations_empty_response.2.2.2.2.2.1 transEmptyOk ⟨0, 0⟩ rfl rfl,
   get_operations_empty_response.2.2.2.2.2.2.1 transEmptyOk ⟨0, 0⟩ rfl rfl,
   get_operations_empty_response.2.2.2.2.2.2.2.1 transEmptyOk ⟨0, 0⟩ "0003" rfl rfl,
   get_operations_empty_response.2.2.2.2.2.2.2.2 transEmptyOk ⟨0, 0⟩ rfl rfl⟩

/-- C9: packing the six event flags (bit 0 = tag_seen .. bit 5 =
gen2_op_timeout) with `create_event_mask`, or the four antenna flags (bit 0 =
ant1 .. bit 3 = ant4) with the `set_ant_enables` packing, and then unpacking
each bit with `bit_status` reproduces exactly the original 0/1 flag set. -/
theorem event_and_antenna_mask_roundtrip :
    (∀ ts trm tpc trt g2c g2t : Nat, ts ≤ 1 → trm ≤ 1 → tpc ≤ 1 → trt ≤ 1 →
      g2c ≤ 1 → g2t ≤ 1 →
      bit_status (create_event_mask ts trm tpc trt g2c g2t) 0 = decide (ts = 1) ∧
      bit_status (create_event_mask ts trm tpc trt g2c g2t) 1 = decide (trm = 1) ∧
      bit_status (create_event_mask ts trm tpc trt g2c g2t) 2 = decide (tpc = 1) ∧
      bit_status (create_event_mask ts trm tpc trt g2c g2t) 3 = decide (trt = 1) ∧
      bit_status (create_event_mask ts trm tpc trt g2c g2t) 4 = decide (g2c = 1) ∧
      bit_status (create_event_mask ts trm tpc trt g2c g2t) 5 = decide (g2t = 1))
    ∧ (∀ a1 a2 a3 a4 : Nat, a1 ≤ 1 → a2 ≤ 1 → a3 ≤ 1 → a4 ≤ 1 →
      bit_status (create_ant_enables a1 a2 a3 a4) 0 = decide (a1 = 1) ∧
      bit_status (create_ant_enables a1 a2 a3 a4) 1 = decide (a2 = 1) ∧
      bit_status (create_ant_enables a1 a2 a3 a4) 2 = decide (a3 = 1) ∧
      bit_status (create_ant_enables a1 a2 a3 a4) 3 = decide (a4 = 1)) := by
  constructor
  · intro ts trm tpc trt g2c g2t h1 h2 h3 h4 h5 h6
    interval_cases ts <;> interval_cases trm <;> interval_cases tpc <;>
      interval_cases trt <;> interval_cases g2c <;> interval_cases g2t <;> decide
  · intro a1 a2 a3 a4 h1 h2 h3 h4
    interval_cases a1 <;> interval_cases a2 <;> interval_cases a3 <;>
      interval_cases a4 <;> decide

/-- Witness for C9: a concrete flag assignment round-trips through both
packings. -/
theorem event_and_antenna_mask_roundtrip_witness :
    bit_status (create_event_mask 1 0 1 0 0 1) 5 = decide ((1 : Nat) = 1) ∧
    bit_status (create_ant_enables 0 1 0 1) 3 = decide ((1 : Nat) = 1) :=
  ⟨(event_and_antenna_mask_roundtrip.1 1 0 1 0 0 1 (by decide) (by decide) (by decide)
      (by decide) (by decide) (by decide)).2.2.2.2.2,
   (event_and_antenna_mask_roundtrip.2 0 1 0 1 (by decide) (by decide) (by decide)
      (by decide)).2.2.2⟩

/-- Identifiers of the device-operation call sites inside one cycle of
`start_reading`, in source order. -/
inductive StepId
  | kaAwait
  | setOpStateIdle1
  | setOpRegionStep
  | setTxPowerStep
  | setAntEnablesStep
  | getVersionStep
  | getTempStep
  | getOpRegionStep
  | getTxPowerStep
  | getAntEnablesStep
  | ka2
  | ka3
  | setOpStateTagRead
  | getOpStateStep
  | tagPoll (i : Nat)
  | setOpStateIdle2
deriving DecidableEq

/-- Per-call-site outcomes of the device operations invoked by one cycle of
`start_reading`, plus the session parameters that steer the cycle's control
flow (`tagReport`, `soundEffect`).  Tag-poll attempts are indexed from 0. -/
structure CycleOracle where
  kaAwaitErr : Option DevError
  kaAwaitAlive : Option Bool
  setOpStateIdle1Err : Option DevError
  setOpRegionErr : Option DevError
  setTxPowerErr : Option DevError
  setAntEnablesErr : Option DevError
  getVersionRes : Option DevError × Option VersionInfo
  getTempRes : Option DevError × Option ℚ
  getOpRegionRes : Option DevError × Option Bytes
  getTxPowerRes : Option DevError × Option TxPowerInfo
  getAntEnablesRes : Option DevError × Option AntEnablesInfo
  ka2Res : Option DevError × Option Bool
  ka3Res : Option DevError × Option Bool
  setOpStateTagReadErr : Option DevError
  getOpStateRes : Option DevError × Option String
  tagPollRes : Nat → Option DevError × Option TagReportInfo
  setOpStateIdle2Err : Option DevError
  tagReport : Bool
  soundEffect : Bool

/-- The per-step error dictionary `errorAll` assembled at the end of each
cycle (field names follow the source's dictionary keys). -/
structure ErrorAll where
  keep_alive : Option DevError
  opSate_set : Option DevError
  opRegion_set : Option DevError
  SET_TX_POWER : Option DevError
  SET_ANT_ENABLES : Option DevError
  version_get : Option DevError
  temp_get : Option DevError
  op_reg_get : Option DevError
  tx_power_get : Option DevError
  GET_ANT_ENABLES : Option DevError
  op_state_get : Option DevError
  tag_report_get : Option DevError
deriving DecidableEq

/-- One emitted `meta_data` record (the CycleResult), together with the
model-level observables of the cycle: the ordered list of executed
device-operation call sites, the number of tag-poll attempts, and the number
of audio-cue signals emitted. -/
structure CycleOut where
  errorAll : ErrorAll
  alive : Option Bool
  version : Option VersionInfo
  temp : Option ℚ
  op_reg : Option Bytes
  tx_power : Option TxPowerInfo
  ant_enables : Option AntEnablesInfo
  op_state : Option String
  tag_report : Option TagReportInfo
  executed : List StepId
  pollAttempts : Nat
  audioCues : Nat
deriving DecidableEq

/-- The tag-poll loop of `start_reading`: `i` is the next attempt index,
the fuel counts the remaining attempts (started at 10), and `prev` carries
the previous attempt's `(error, report)`; the loop breaks at the first
attempt whose parsed report is not `None`.  Returns the final error, report,
and the number of attempts performed. -/
def pollAux (o : CycleOracle) : Nat → Nat → (Option DevError × Option TagReportInfo) →
    Option DevError × Option TagReportInfo × Nat
  | i, 0, prev => (prev.1, prev.2, i)
  | i, n + 1, _prev =>
    if (o.tagPollRes i).2.isSome then ((o.tagPollRes i).1, (o.tagPollRes i).2, i + 1)
    else pollAux o (i + 1) n (o.tagPollRes i)

/-- `while i < 10: ... get_tag_report ... break on non-None report`. -/
def pollTags (o : CycleOracle) : Option DevError × Option TagReportInfo × Nat :=
  pollAux o 0 10 (none, none)

/-- The fixed sequence of device-operation call sites executed by the
configure/diagnostics part of a cycle (entered when the awaiting-start
keep-alive reported no error). -/
def configureSteps : List StepId :=
  [.kaAwait, .setOpStateIdle1, .setOpRegionStep, .setTxPowerStep,
   .setAntEnablesStep, .getVersionStep, .getTempStep, .getOpRegionStep,
   .getTxPowerStep, .getAntEnablesStep, .ka2, .ka3]

/-- One cycle body of `start_reading` (one iteration of the outer
`while True`, after the awaiting-start loop ended with `startReading`
true), as a function of the per-call-site outcomes.  The whole
configure/get/poll block is guarded by `if error_keep_alive is None`; the
result list holds the CycleResults emitted by the body (always exactly
one, by the unconditional emit at the end of the body). -/
def cycle (o : CycleOracle) : List CycleOut :=
  if o.kaAwaitErr = none then
    let poll := pollTags o
    [{ errorAll :=
        { keep_alive := o.ka3Res.1
          opSate_set := if o.tagReport then o.setOpStateIdle2Err else o.setOpStateIdle1Err
          opRegion_set := o.setOpRegionErr
          SET_TX_POWER := o.setTxPowerErr
          SET_ANT_ENABLES := o.setAntEnablesErr
          version_get := o.getVersionRes.1
          temp_get := o.getTempRes.1
          op_reg_get := o.getOpRegionRes.1
          tx_power_get := o.getTxPowerRes.1
          GET_ANT_ENABLES := o.getAntEnablesRes.1
          op_state_get := if o.tagReport then o.getOpStateRes.1 else none
          tag_report_get := if o.tagReport then poll.1 else none }
       alive := o.ka3Res.2
       version := o.getVersionRes.2
       temp := o.getTempRes.2
       op_reg := o.getOpRegionRes.2
       tx_power := o.getTxPowerRes.2
       ant_enables := o.getAntEnablesRes.2
       op_state := if o.tagReport then o.getOpStateRes.2 else none
       tag_report := if o.tagReport then poll.2.1 else none
       executed := configureSteps ++
         (if o.tagReport then
           [.setOpStateTagRead, .getOpStateStep] ++
             (List.range poll.2.2).map .tagPoll ++ [.setOpStateIdle2]
          else [])
       pollAttempts := if o.tagReport then poll.2.2 else 0
       audioCues := if o.tagReport && o.soundEffect && poll.1 == none then 1 else 0 }]
  else
    [{ errorAll :=
        { keep_alive := o.kaAwaitErr
          opSate_set := none
          opRegion_set := none
          SET_TX_POWER := none
          SET_ANT_ENABLES := none
          version_get := none
          temp_get := none
          op_reg_get := none
          tx_power_get := none
          GET_ANT_ENABLES := none
          op_state_get := none
          tag_report_get := none }
       alive := o.kaAwaitAlive
       version := none
       temp := none
       op_reg := none
       tx_power := none
       ant_enables := none
       op_state := none
       tag_report := none
       executed := [.kaAwait]
       pollAttempts := 0
       audioCues := 0 }]

theorem pollAux_le (o : CycleOracle) :
    ∀ n i prev, (pollAux o i n prev).2.2 ≤ i + n := by
  intro n
  induction n with
  | zero => intro i prev; simp [pollAux]
  | succ n ih =>
    intro i prev
    cases h : (o.tagPollRes i).2.isSome with
    | true =>
      simp only [pollAux, h, if_true]
      omega
    | false =>
      simp only [pollAux, h, Bool.false_eq_true, if_false]
      have := ih (i + 1) (o.tagPollRes i)
      omega

theorem pollAux_first_some (o : CycleOracle) :
    ∀ k n i prev, k < n →
      (∀ j, j < k → (o.tagPollRes (i + j)).2 = none) →
      (o.tagPollRes (i + k)).2.isSome = true →
      pollAux o i n prev =
        ((o.tagPollRes (i + k)).1, (o.tagPollRes (i + k)).2, i + k + 1) := by
  intro k
  induction k with
  | zero =>
    intro n i prev hn _ hsome
    obtain ⟨m, rfl⟩ : ∃ m, n = m + 1 := ⟨n - 1, by omega⟩
    rw [Nat.add_zero] at hsome
    simp only [pollAux, hsome, if_true]
    simp
  | succ k ih =>
    intro n i prev hn hall hsome
    obtain ⟨m, rfl⟩ : ∃ m, n = m + 1 := ⟨n - 1, by omega⟩
    have h0 : (o.tagPollRes i).2 = none := by
      have := hall 0 (by omega)
      rwa [Nat.add_zero] at this
    have h0f : (o.tagPollRes i).2.isSome = false := by rw [h0]; rfl
    simp only [pollAux, h0f, Bool.false_eq_true, if_false]
    have hall' : ∀ j, j < k → (o.tagPollRes (i + 1 + j)).2 = none := by
      intro j hj
      have h := hall (j + 1) (by omega)
      rwa [show i + (j + 1) = i + 1 + j by omega] at h
    have hsome' : (o.tagPollRes (i + 1 + k)).2.isSome = true := by
      rwa [show i + (k + 1) = i + 1 + k by omega] at hsome
    rw [ih m (i + 1) (o.tagPollRes i) (by omega) hall' hsome']
    rw [show i + 1 + k = i + (k + 1) by omega]

theorem pollAux_all_none (o : CycleOracle) :
    ∀ n i prev, 0 < n →
      (∀ j, j < n → (o.tagPollRes (i + j)).2 = none) →
      pollAux o i n prev = ((o.tagPollRes (i + (n - 1))).1, none, i + n) := by
  intro n
  induction n with
  | zero => intro i prev h; omega
  | succ n ih =>
    intro i prev _ hall
    have h0 : (o.tagPollRes i).2 = none := by
      have := hall 0 (by omega)
      rwa [Nat.add_zero] at this
    have h0f : (o.tagPollRes i).2.isSome = false := by rw [h0]; rfl
    simp only [pollAux, h0f, Bool.false_eq_true, if_false]
    rcases Nat.eq_zero_or_pos n with hn | hn
    · subst hn
      simp only [pollAux, Nat.add_zero, h0]
      simp
    · have hall' : ∀ j, j < n → (o.tagPollRes (i + 1 + j)).2 = none := by
        intro j hj
        have h := hall (j + 1) (by omega)
        rwa [show i + (j + 1) = i + 1 + j by omega] at h
      rw [ih (i + 1) (o.tagPollRes i) hn hall']
      rw [show i + 1 + (n - 1) = i + (n + 1 - 1) by omega,
        show i + 1 + n = i + (n + 1) by omega]

/-- A cycle oracle where the awaiting-start keep-alive fails while a later
set step would also have reported an error. -/
def cycleOracleKaFail : CycleOracle :=
  { kaAwaitErr := some (.transport "Err1: No bytes from the device")
    kaAwaitAlive := none
    setOpStateIdle1Err := none
    setOpRegionErr := some .unableSetOpRegion
    setTxPowerErr := none
    setAntEnablesErr := none
    getVersionRes := (none, none)
    getTempRes := (none, none)
    getOpRegionRes := (none, none)
    getTxPowerRes := (none, none)
    getAntEnablesRes := (none, none)
    ka2Res := (none, none)
    ka3Res := (none, none)
    setOpStateTagReadErr := none
    getOpStateRes := (none, none)
    tagPollRes := fun _ => (none, none)
    setOpStateIdle2Err := none
    tagReport := true
    soundEffect := false }

/-- Counterexample for C4: when the awaiting-start keep-alive errors, the
whole configure/get/poll block is skipped (`if error_keep_alive is None`),
so the remaining steps do NOT execute and their would-be errors are not
recorded: the only executed step is the keep-alive, and the region-set error
slot stays empty although the oracle had a region-set error to report. -/
theorem cycle_keep_alive_error_skips_steps :
    cycleOracleKaFail.kaAwaitErr ≠ none ∧
    cycleOracleKaFail.setOpRegionErr ≠ none ∧
    (cycle cycleOracleKaFail).map CycleOut.executed = [[StepId.kaAwait]] ∧
    (cycle cycleOracleKaFail).map (fun out => out.errorAll.opRegion_set) = [none] := by
  refine ⟨by decide, by decide, ?_, ?_⟩ <;>
    simp [cycle, cycleOracleKaFail]

/-- C4 (amended): (a) every cycle emits exactly one CycleResult; (b) when
the awaiting-start keep-alive succeeded, every configure/diagnostics step
executes independently of the other steps' outcomes, and the error map
records, for each single-call key, exactly that call's error (keys written
several times — keep-alive, operating-state set, tag polling — keep the
LAST call's error); (c) when the awaiting-start keep-alive failed, the
configure/get/poll steps are all skipped, but exactly one CycleResult is
still emitted, carrying the keep-alive error. -/
theorem cycle_aggregates_step_errors :
    (∀ o : CycleOracle, (cycle o).length = 1)
    ∧ (∀ o : CycleOracle, o.kaAwaitErr = none →
        ∀ out ∈ cycle o,
          (∀ step ∈ configureSteps, step ∈ out.executed) ∧
          out.errorAll.opRegion_set = o.setOpRegionErr ∧
          out.errorAll.SET_TX_POWER = o.setTxPowerErr ∧
          out.errorAll.SET_ANT_ENABLES = o.setAntEnablesErr ∧
          out.errorAll.version_get = o.getVersionRes.1 ∧
          out.errorAll.temp_get = o.getTempRes.1 ∧
          out.errorAll.op_reg_get = o.getOpRegionRes.1 ∧
          out.errorAll.tx_power_get = o.getTxPowerRes.1 ∧
          out.errorAll.GET_ANT_ENABLES = o.getAntEnablesRes.1 ∧
          out.errorAll.keep_alive = o.ka3Res.1)
    ∧ (∀ o : CycleOracle, o.kaAwaitErr ≠ none →
        ∀ out ∈ cycle o,
          out.executed = [.kaAwait] ∧
          out.errorAll.keep_alive = o.kaAwaitErr) := by
  refine ⟨?_, ?_, ?_⟩
  · intro o
    by_cases h : o.kaAwaitErr = none <;> simp [cycle, h]
  · intro o ho out hout
    simp only [cycle, if_pos ho, List.mem_singleton] at hout
    subst hout
    refine ⟨?_, rfl, rfl, rfl, rfl, rfl, rfl, rfl, rfl, rfl⟩
    intro step hstep
    exact List.mem_append_left _ hstep
  · intro o ho out hout
    simp only [cycle, if_neg ho, List.mem_singleton] at hout
    subst hout
    exact ⟨rfl, rfl⟩

/-- A cycle oracle with a successful awaiting-start keep-alive and assorted
step errors. -/
def cycleOracleOk : CycleOracle :=
  { kaAwaitErr := none
    kaAwaitAlive := some true
    setOpStateIdle1Err := none
    setOpRegionErr := some (.invalidOpRegion "FCC")
    setTxPowerErr := some (.unableSetTxPower 10 10 10 10)
    setAntEnablesErr := none
    getVersionRes := (some .unableGetVersion, none)
    getTempRes := (none, none)
    getOpRegionRes := (none, none)
    getTxPowerRes := (none, none)
    getAntEnablesRes := (none, none)
    ka2Res := (none, some true)
    ka3Res := (none, some true)
    setOpStateTagReadErr := none
    getOpStateRes := (none, some "Tag Read")
    tagPollRes := fun _ => (some .unableGetTagReport, none)
    setOpStateIdle2Err := none
    tagReport := true
    soundEffect := false }

/-- Witness for C4: on a concrete oracle with several failing steps the
cycle emits one result, the region-set step still executed, and its error
is recorded next to the tx-power error. -/
theorem cycle_aggregates_step_errors_witness :
    (cycle cycleOracleOk).length = 1 ∧
    (cycle cycleOracleOk).map
        (fun out => (decide (StepId.setOpRegionStep ∈ out.executed),
          out.errorAll.opRegion_set, out.errorAll.SET_TX_POWER)) =
      [(true, some (.invalidOpRegion "FCC"), some (.unableSetTxPower 10 10 10 10))] := by
  refine ⟨cycle_aggregates_step_errors.1 cycleOracleOk, ?_⟩
  obtain ⟨out, hout⟩ : ∃ out, cycle cycleOracleOk = [out] := by
    simp only [cycle]
    exact ⟨_, by rw [if_pos (show cycleOracleOk.kaAwaitErr = none from rfl)]⟩
  have hmem : out ∈ cycle cycleOracleOk := by
    rw [hout]
    exact List.mem_cons_self _ _
  have h := cycle_aggregates_step_errors.2.1 cycleOracleOk rfl out hmem
  rw [hout]
  simp [h.1 StepId.setOpRegionStep (by decide), h.2.1, h.2.2.1, cycleOracleOk]

/-- C8: in every cycle with a successful awaiting-start keep-alive and tag
reporting enabled: the TagRead state set executes; the poll loop makes at
most 10 `get_tag_report` attempts and stops at the first attempt whose
parsed report is non-None, recording that attempt's report; when all 10
attempts parse to None, exactly 10 attempts are made and no report is
carried; and afterwards the operating state is unconditionally set back to
Idle — the Idle set is the last executed device operation, whether or not a
report was obtained. -/
theorem cycle_tag_polling :
    ∀ o : CycleOracle, o.kaAwaitErr = none → o.tagReport = true →
      ∀ out ∈ cycle o,
        StepId.setOpStateTagRead ∈ out.executed ∧
        out.executed.getLast? = some StepId.setOpStateIdle2 ∧
        out.pollAttempts ≤ 10 ∧
        (∀ k, k < 10 → (∀ j, j < k → (o.tagPollRes j).2 = none) →
          (o.tagPollRes k).2.isSome = true →
          out.pollAttempts = k + 1 ∧ out.tag_report = (o.tagPollRes k).2) ∧
        ((∀ j, j < 10 → (o.tagPollRes j).2 = none) →
          out.pollAttempts = 10 ∧ out.tag_report = none) := by
  intro o hka htag out hout
  simp only [cycle, if_pos hka, List.mem_singleton] at hout
  subst hout
  simp only [htag, eq_self_iff_true, if_true, Bool.true_and]
  refine ⟨?_, ?_, ?_, ?_, ?_⟩
  · simp [configureSteps]
  · rw [← List.append_assoc]
    exact List.getLast?_concat _
  · simpa using pollAux_le o 10 0 (none, none)
  · intro k hk hall hsome
    have hall' : ∀ j, j < k → (o.tagPollRes (0 + j)).2 = none := by
      intro j hj
      rw [Nat.zero_add]
      exact hall j hj
    have hsome' : (o.tagPollRes (0 + k)).2.isSome = true := by
      rwa [Nat.zero_add]
    rw [pollTags, pollAux_first_some o k 10 0 (none, none) hk hall' hsome']
    constructor
    · simp
    · simp
  · intro hall
    have hall' : ∀ j, j < 10 → (o.tagPollRes (0 + j)).2 = none := by
      intro j hj
      rw [Nat.zero_add]
      exact hall j hj
    rw [pollTags, pollAux_all_none o 10 0 (none, none) (by omega) hall']
    constructor <;> simp

/-- Witness for C8: on the concrete all-None-poll oracle the cycle makes 10
attempts, carries no report, and the Idle set is still the last executed
step. -/
theorem cycle_tag_polling_witness :
    (cycle cycleOracleOk).map
        (fun out => (out.executed.getLast?, out.pollAttempts, out.tag_report)) =
      [(some StepId.setOpStateIdle2, 10, (none : Option TagReportInfo))] := by
  obtain ⟨out, hout⟩ : ∃ out, cycle cycleOracleOk = [out] := by
    simp only [cycle]
    exact ⟨_, by rw [if_pos (show cycleOracleOk.kaAwaitErr = none from rfl)]⟩
  have hmem : out ∈ cycle cycleOracleOk := by
    rw [hout]
    exact List.mem_cons_self _ _
  have h1 := cycle_tag_polling cycleOracleOk rfl rfl out hmem
  have h2 := h1.2.2.2.2 (fun j _ => rfl)
  rw [hout]
  simp [h1.2.1, h2.1, h2.2]
